import Mathlib

/-!
Shallow embedding of the qlisp interpreter core (src/src/interpreter.cpp)
and verification of the frozen claims about it.

Objects live in a heap (a list of `Obj` addressed by position), because the
interpreter mutates shared expression-tree nodes in place (flag setting,
list-literal element overwriting, symbol rebinding).  The process-wide
interpreter state `IS` (symbol-table chain, call-depth counter) together
with the heap and the text printed so far forms `IState`.

The evaluator `run` is a fuel-indexed function over explicit tasks.  Each
`Task` constructor corresponds to one function or one loop of the source:
`eval` is `eval_expr`, `evalLitElems` is the element loop of the
list-literal branch, `applyCallable` is the callable dispatch at the end of
the `List` branch, `builtinCall` is the builtin dispatch table,
`addLoop`/`subLoop` are the operand loops of `add_objects`/`sub_objects`,
`printLoop` is the loop of `print_builtin`, `condLoop` is the loop of
`cond_builtin`, `callFunction`/`bindParams`/`collectVariadic`/`enterBody`/
`evalBody` split `call_function` at its loops.  Running out of fuel is a
model artifact (`Err.fuel`); an uncaught C++ exception (out-of-range
`std::vector::at`, which terminates the process) is `Err.crash`.

The files objects.cpp / objects.hpp of the repository are not under src/:
definitions taken from them are marked `Modelled from the spec:` in their
doc comments and follow the specification text.
-/

/-- Object type tag (ObjType in the source).  The source dispatches
builtins through function objects: `is_callable` accepts only
`ObjType::Function`, so builtin objects are Function-typed and carry the
OF_BUILTIN flag. -/
inductive ObjType where
  | Nil
  | Bool
  | Number
  | String
  | Symbol
  | List
  | Function
deriving DecidableEq, Repr

/-- A tagged object.  The fields mirror the value union and the flag set of
the source object model: `bval`/`ival`/`sval` hold Bool/Number/String or
Symbol payloads, `lval` holds the heap addresses of list members,
`funargs`/`funbody` hold the parameter-list and body addresses of a
function, `builtinName` identifies the native handler of a builtin, and
`evaluated`/`listLiteral`/`lambdaFlag`/`builtinFlag` are OF_EVALUATED,
OF_LIST_LITERAL, OF_LAMBDA and OF_BUILTIN. -/
structure Obj where
  type : ObjType := .Nil
  bval : Bool := false
  ival : Int := 0
  sval : String := ""
  lval : List Nat := []
  funargs : Nat := 0
  funbody : Nat := 0
  builtinName : String := ""
  evaluated : Bool := false
  listLiteral : Bool := false
  lambdaFlag : Bool := false
  builtinFlag : Bool := false
deriving DecidableEq, Repr

instance : Inhabited Obj := ⟨{}⟩

/-- One scope of the symbol table: a name-to-address mapping (SymVars). -/
abbrev Frame := List (String × Nat)

/-- The process-wide interpreter state: the object heap, the scope chain
(head is the innermost scope, the last frame is the global table whose
`prev` is null), the call-depth counter `call_stack_size`, and the text
printed so far (diagnostics and `print` output, in order). -/
structure IState where
  heap : List Obj
  frames : List Frame
  callStackSize : Nat
  out : List String
deriving DecidableEq, Repr

/-- Heap address of the `nil_obj` singleton. -/
def nilIdx : Nat := 0

/-- Heap address of the `true_obj` singleton. -/
def trueIdx : Nat := 1

/-- Heap address of the `false_obj` singleton. -/
def falseIdx : Nat := 2

/-- Heap address of the `dot_obj` sentinel (compared by identity). -/
def dotIdx : Nat := 3

/-- Heap address of the `else_obj` sentinel (compared by identity; its text
is "." in the source, see line 702). -/
def elseIdx : Nat := 4

/-- MAX_STACK_SIZE from the source. -/
def MAX_STACK_SIZE : Nat := 256

/-- Dereference a heap address (out-of-range reads yield a default
object; the claims only exercise valid addresses). -/
def IState.getObj (s : IState) (i : Nat) : Obj := s.heap.getD i default

/-- Overwrite the object stored at a heap address (in-place mutation of a
shared expression-tree node). -/
def IState.setObj (s : IState) (i : Nat) (o : Obj) : IState :=
  { s with heap := s.heap.set i o }

/-- Allocate a fresh object (`new_object` and the create_* helpers never
reuse storage); returns its address and the new state. -/
def IState.alloc (s : IState) (o : Obj) : Nat × IState :=
  (s.heap.length, { s with heap := s.heap ++ [o] })

/-- Record one piece of printed text (printf / error_msg). -/
def IState.report (s : IState) (m : String) : IState :=
  { s with out := s.out ++ [m] }

/-- Association-list lookup for one frame (unordered_map::find). -/
def lookupA : Frame → String → Option Nat
  | [], _ => none
  | (k, v) :: rest, key => if k = key then some v else lookupA rest key

/-- Association-list store for one frame (map[k] = v replaces an existing
entry or adds a new one). -/
def insertA : Frame → String → Nat → Frame
  | [], key, v => [(key, v)]
  | (k, w) :: rest, key, v =>
    if k = key then (key, v) :: rest else (k, w) :: insertA rest key v

/-- get_symbol: walk the scope chain outward; at the root (prev == null) a
missing name yields the `nil_obj` singleton — note the source returns the
nil object itself, never a null pointer. -/
def get_symbol_frames : List Frame → String → Nat
  | [], _ => nilIdx
  | f :: rest, key =>
    match lookupA f key with
    | some v => v
    | none =>
      match rest with
      | [] => nilIdx
      | _ :: _ => get_symbol_frames rest key

/-- get_symbol on the current state. -/
def get_symbol (s : IState) (key : String) : Nat :=
  get_symbol_frames s.frames key

/-- set_symbol: store into the innermost scope only
(`IS.symtable->map[key] = value`). -/
def set_symbol (s : IState) (key : String) (v : Nat) : IState :=
  match s.frames with
  | [] => s
  | f :: rest => { s with frames := insertA f key v :: rest }

/-- enter_scope_with: push a pre-filled scope whose parent is the scope
chain active at call time. -/
def enter_scope_with (s : IState) (vars : Frame) : IState :=
  { s with frames := vars :: s.frames }

/-- exit_scope: pop the innermost scope. -/
def exit_scope (s : IState) : IState :=
  { s with frames := s.frames.tail }

/-- Modelled from the spec: list_length (objects.cpp is not under src/):
the number of members of a list object. -/
def list_length (s : IState) (o : Nat) : Nat := (s.getObj o).lval.length

/-- Modelled from the spec: list_index (objects.cpp is not under src/):
the i-th member of a list object. -/
def list_index (s : IState) (o : Nat) (i : Nat) : Nat :=
  (s.getObj o).lval.getD i nilIdx

/-- Modelled from the spec: is_truthy (objects.cpp is not under src/):
anything other than the `false`/`Nil` singletons is truthy; the singletons
are compared by identity. -/
def is_truthy (o : Nat) : Bool := o ≠ falseIdx && o ≠ nilIdx

/-- Modelled from the spec: obj_to_string, used by `print` (objects.cpp is
not under src/).  Only the display of atoms matters to the claims, which
count print events rather than parse display text. -/
def obj_to_string (s : IState) (o : Nat) : String :=
  let ob := s.getObj o
  match ob.type with
  | .Number => toString ob.ival
  | .String => ob.sval
  | .Symbol => ob.sval
  | .Nil => "nil"
  | .Bool => if ob.bval then "true" else "false"
  | .List => "(list)"
  | .Function => "(function)"

/-- Modelled from the spec: add_two_objects, the external binary numeric
collaborator used by the `+` fold; per the spec arity law `(+ 1 2 3)`
yields `6`, so on two Numbers it produces their sum; other type pairings
belong to the contract of the collaborator and are modelled as the nil object. -/
def add_two_objects (s : IState) (a b : Nat) : Nat × IState :=
  let oa := s.getObj a
  let ob := s.getObj b
  if oa.type = .Number ∧ ob.type = .Number then
    s.alloc { type := .Number, ival := oa.ival + ob.ival, evaluated := true }
  else (nilIdx, s)

/-- Modelled from the spec: sub_two_objects, the external subtraction
collaborator (see `add_two_objects`). -/
def sub_two_objects (s : IState) (a b : Nat) : Nat × IState :=
  let oa := s.getObj a
  let ob := s.getObj b
  if oa.type = .Number ∧ ob.type = .Number then
    s.alloc { type := .Number, ival := oa.ival - ob.ival, evaluated := true }
  else (nilIdx, s)

/-- Modelled from the spec: the external two-operand collaborators invoked
through binary_builtin (objects_mul, objects_div, objects_pow,
objects_equal, objects_gt, objects_lt); numeric semantics are the
contract of the collaborator, modelled on Numbers and yielding the nil
object elsewhere. -/
def binary_op_handler (name : String) (s : IState) (a b : Nat) : Nat × IState :=
  let oa := s.getObj a
  let ob := s.getObj b
  if oa.type = .Number ∧ ob.type = .Number then
    match name with
    | "*" => s.alloc { type := .Number, ival := oa.ival * ob.ival, evaluated := true }
    | "/" => s.alloc { type := .Number, ival := oa.ival / ob.ival, evaluated := true }
    | "**" => s.alloc { type := .Number, ival := oa.ival ^ ob.ival.toNat, evaluated := true }
    | "=" => (if oa.ival = ob.ival then trueIdx else falseIdx, s)
    | ">" => (if oa.ival > ob.ival then trueIdx else falseIdx, s)
    | "<" => (if oa.ival < ob.ival then trueIdx else falseIdx, s)
    | _ => (nilIdx, s)
  else (nilIdx, s)

deriving instance DecidableEq for Except

/-- Abnormal outcomes of a run: `fuel` is the model artifact of the fuel
bound; `crash` is an uncaught C++ exception (std::vector::at out of range)
which terminates the interpreter process. -/
inductive Err where
  | fuel
  | crash
deriving DecidableEq, Repr

/-- The evaluator tasks; each constructor corresponds to one function or
one loop of interpreter.cpp (see the header comment). -/
inductive EvalTask where
  | eval (e : Nat)
  | evalLitElems (e : Nat) (i : Nat)
  | applyCallable (c : Nat) (e : Nat)
  | builtinCall (name : String) (e : Nat)
  | binaryOp (name : String) (e : Nat)
  | addLoop (acc : Nat) (args : List Nat)
  | subLoop (acc : Nat) (args : List Nat)
  | printLoop (args : List Nat)
  | condLoop (e : Nat) (i : Nat)
  | callFunction (fobj : Nat) (argsList : Nat)
  | bindParams (fobj : Nat) (argsList : Nat) (argIdx : Nat) (locals : Frame)
  | collectVariadic (fobj : Nat) (argsList : Nat) (vargIdx : Nat) (vl : Nat)
      (pIdx : Nat) (locals : Frame)
  | enterBody (fobj : Nat) (locals : Frame)
  | evalBody (es : List Nat) (last : Nat)
deriving DecidableEq, Repr

/-- Diagnostic texts recorded by the model (static prefixes of the
printf / error_msg format strings of the source). -/
def msgAddArity : String := "Add (+) operator cant have less than two arguments"

/-- Diagnostic of sub_objects (the source text itself says (+)). -/
def msgSubArity : String := "Subtraction (+) operator cant have less than two arguments"

/-- Diagnostic of setq_builtin on wrong arity. -/
def msgSetqArity : String := "setq takes exactly two arguments"

/-- Diagnostic of defun_builtin with fewer than two operands. -/
def msgDefunArity : String := "Function should have an argument list and a body"

/-- Diagnostic of defun_builtin on a non-list parameter list. -/
def msgDefunList : String := "Function definition list should be a list"

/-- Diagnostic of lambda_builtin with fewer than two operands. -/
def msgLambdaArity : String := "Lambdas should have an argument list and a body"

/-- Diagnostic of lambda_builtin on a non-list parameter list. -/
def msgLambdaList : String := "First paremeter of lambda() should be a list"

/-- Diagnostic of if_builtin on wrong arity. -/
def msgIfArity : String := "if takes exactly 3 arguments"

/-- Diagnostic of binary_builtin on wrong arity (name-prefixed). -/
def msgBinaryArity (name : String) : String := name ++ " takes exactly 2 operands"

/-- Diagnostic of car_builtin on a non-list operand. -/
def msgCarType : String := "car only operates on lists"

/-- Diagnostic of cadr_builtin on a non-list operand. -/
def msgCadrType : String := "cadr only operates on lists"

/-- Diagnostic of cdr_builtin on a non-list operand. -/
def msgCdrType : String := "cdr only operates on lists"

/-- Diagnostic of cond_builtin with no condition pair. -/
def msgCondArity : String := "cond requires at least one condition pair argument"

/-- Diagnostic of check_builtin_n_params (the source hardcodes the name
timeit in error_builtin_arg_mismatch_function for every caller). -/
def msgBuiltinParams : String := "timeit argument mismatch"

/-- Diagnostic of eval_expr on a non-callable operator. -/
def msgNotCallable : String := "is not callable"

/-- Diagnostic of call_function when the counter exceeds MAX_STACK_SIZE. -/
def msgMaxStack : String := "Max call stack size reached"

/-- Diagnostic of call_function on a misplaced dot in the parameter
list. -/
def msgDotDef : String := "apply (.) operator in function definition incorrectly placed"

/-- Diagnostic of call_function on a misplaced caller-side dot. -/
def msgDotCallPos : String := "dot notation on the caller side must be followed by a list argument"

/-- Diagnostic of call_function when the caller-side dot expression does
not evaluate to a list. -/
def msgDotCallList : String := "dot operator on caller side should always be followed by a list argument"

/-- The evaluator.  `run fuel t s` executes task `t` in state `s` with at
most `fuel` nested steps; every recursive call consumes one unit.  Each
task case transcribes the corresponding source code, noted case by case.
The source functions for builtins receive the entire unevaluated call
form `e` and decide which sub-expressions to evaluate. -/
def run : Nat → EvalTask → IState → Except Err (Nat × IState)
  -- eval_expr line 615: the OF_EVALUATED identity short-circuit is the
  -- first statement, before any recursion, so it succeeds at fuel 0 too.
  | 0, .eval e, s =>
    if (s.getObj e).evaluated then .ok (e, s) else .error .fuel
  | 0, _, _ => .error .fuel
  | fuel + 1, t, s =>
    match t with
    -- eval_expr (lines 614-673)
    | .eval e =>
      let o := s.getObj e
      if o.evaluated then .ok (e, s)
      else
        match o.type with
        | .Symbol =>
          -- lines 619-636.  get_symbol returns the nil singleton (never a
          -- null pointer) for an absent name, so present_in_symtable is
          -- always true and the branch printing "Symbol not found" at
          -- line 625 is unreachable.
          let res := get_symbol s o.sval
          if ¬ (s.getObj res).evaluated then
            match run fuel (.eval res) s with
            | .error err => .error err
            | .ok (r, s1) =>
              let s2 := s1.setObj r { s1.getObj r with evaluated := true }
              .ok (r, set_symbol s2 o.sval r)
          else .ok (res, s)
        | .List =>
          if o.listLiteral then
            -- lines 638-646: evaluate each member in place, then flag.
            run fuel (.evalLitElems e 0) s
          else if o.lval.length = 0 then .ok (e, s)
          else
            match run fuel (.eval (o.lval.getD 0 nilIdx)) s with
            | .error err => .error err
            | .ok (c, s1) => run fuel (.applyCallable c e) s1
        | _ => .ok (e, s)
    -- the element loop of the list-literal branch (lines 639-643); the
    -- member count is re-read from the current state on every iteration
    | .evalLitElems e i =>
      if i < (s.getObj e).lval.length then
        match run fuel (.eval ((s.getObj e).lval.getD i nilIdx)) s with
        | .error err => .error err
        | .ok (r, s1) =>
          let o1 := s1.getObj e
          run fuel (.evalLitElems e (i + 1)) (s1.setObj e { o1 with lval := o1.lval.set i r })
      else
        .ok (e, s.setObj e { s.getObj e with evaluated := true })
    -- lines 650-665: is_callable accepts only ObjType::Function; builtins
    -- carry OF_BUILTIN and dispatch by name; otherwise call_function.
    | .applyCallable c e =>
      let co := s.getObj c
      if co.type ≠ .Function then .ok (nilIdx, s.report msgNotCallable)
      else if co.builtinFlag then run fuel (.builtinCall co.builtinName e) s
      else run fuel (.callFunction c e) s
    -- the builtin dispatch table installed by init_interp (lines 708-727)
    | .builtinCall name e =>
      let l := (s.getObj e).lval
      match name with
      -- add_objects (lines 209-226)
      | "+" =>
        if l.length - 1 < 2 then .ok (nilIdx, s.report msgAddArity)
        else
          match run fuel (.eval (l.getD 1 nilIdx)) s with
          | .error err => .error err
          | .ok (a0, s1) => run fuel (.addLoop a0 (l.drop 2)) s1
      -- sub_objects (lines 228-244)
      | "-" =>
        if l.length - 1 < 2 then .ok (nilIdx, s.report msgSubArity)
        else
          match run fuel (.eval (l.getD 1 nilIdx)) s with
          | .error err => .error err
          | .ok (a0, s1) => run fuel (.subLoop a0 (l.drop 2)) s1
      -- the wrappers of lines 358-380 all delegate to binary_builtin
      | "*" | "/" | "**" | "=" | ">" | "<" => run fuel (.binaryOp name e) s
      -- setq_builtin (lines 254-266): name operand unevaluated, value
      -- evaluated, stored in the current scope; returns nil
      | "setq" =>
        if l.length - 1 ≠ 2 then .ok (nilIdx, s.report msgSetqArity)
        else
          match run fuel (.eval (l.getD 2 nilIdx)) s with
          | .error err => .error err
          | .ok (v, s1) =>
            .ok (nilIdx, set_symbol s1 (s1.getObj (l.getD 1 nilIdx)).sval v)
      -- print_builtin (lines 268-281)
      | "print" => run fuel (.printLoop (l.drop 1)) s
      -- defun_builtin (lines 283-303): builds a Function whose funargs is
      -- the definition list and whose funbody is the whole defun form,
      -- installs it under the name in slot 0 of the definition list
      | "defun" =>
        if l.length < 3 then .ok (nilIdx, s.report msgDefunArity)
        else
          let fundefIdx := l.getD 1 nilIdx
          if (s.getObj fundefIdx).type ≠ .List then
            .ok (nilIdx, s.report msgDefunList)
          else
            -- fundef_list_v->at(0) throws on an empty definition list
            match (s.getObj fundefIdx).lval.get? 0 with
            | none => .error .crash
            | some fn0 =>
              let funname := (s.getObj fn0).sval
              let (fi, s1) := s.alloc { type := .Function, funargs := fundefIdx, funbody := e }
              .ok (fi, set_symbol s1 funname fi)
      -- lambda_builtin (lines 305-323)
      | "lambda" =>
        if l.length < 3 then .ok (nilIdx, s.report msgLambdaArity)
        else
          let fundefIdx := l.getD 1 nilIdx
          if (s.getObj fundefIdx).type ≠ .List then
            .ok (nilIdx, s.report msgLambdaList)
          else
            let (fi, s1) := s.alloc { type := .Function, lambdaFlag := true, funargs := fundefIdx, funbody := e }
            .ok (fi, s1)
      -- if_builtin (lines 325-342): exactly three operands; evaluates the
      -- condition and then exactly one of the two branches
      | "if" =>
        if l.length ≠ 4 then .ok (nilIdx, s.report msgIfArity)
        else
          match run fuel (.eval (l.getD 1 nilIdx)) s with
          | .error err => .error err
          | .ok (c, s1) =>
            if is_truthy c then run fuel (.eval (l.getD 2 nilIdx)) s1
            else run fuel (.eval (l.getD 3 nilIdx)) s1
      -- car_builtin (lines 382-392)
      | "car" =>
        match run fuel (.eval (list_index s e 1)) s with
        | .error err => .error err
        | .ok (a, s1) =>
          if (s1.getObj a).type ≠ .List then .ok (nilIdx, s1.report msgCarType)
          else if list_length s1 a < 1 then .ok (nilIdx, s1)
          else .ok (list_index s1 a 0, s1)
      -- cadr_builtin (lines 394-404)
      | "cadr" =>
        match run fuel (.eval (list_index s e 1)) s with
        | .error err => .error err
        | .ok (a, s1) =>
          if (s1.getObj a).type ≠ .List then .ok (nilIdx, s1.report msgCadrType)
          else if list_length s1 a < 2 then .ok (nilIdx, s1)
          else .ok (list_index s1 a 1, s1)
      -- cdr_builtin (lines 406-429): the fresh result list is allocated
      -- before the operand is evaluated; an empty operand is returned
      -- unchanged; otherwise the loop at lines 423-426 appends the
      -- members from index 1 onward (equal to dropping the head) and the
      -- result is flagged OF_EVALUATED.  The source checks the list type
      -- twice (is_list at 412 and ->type at 418); both tests coincide.
      | "cdr" =>
        let (nl, s0) := s.alloc { type := .List }
        match run fuel (.eval (list_index s0 e 1)) s0 with
        | .error err => .error err
        | .ok (a, s1) =>
          if (s1.getObj a).type ≠ .List then .ok (nilIdx, s1.report msgCdrType)
          else if list_length s1 a < 1 then .ok (a, s1)
          else
            let s2 := s1.setObj nl { s1.getObj nl with lval := (s1.getObj a).lval.drop 1, evaluated := true }
            .ok (nl, s2)
      -- cond_builtin (lines 431-451)
      | "cond" =>
        if list_length s e < 2 then .ok (nilIdx, s.report msgCondArity)
        else run fuel (.condLoop e 1) s
      -- memtotal_builtin (lines 467-470); the external memory-usage
      -- collaborator is modelled as returning zero bytes
      | "memtotal" => .ok (s.alloc { type := .Number, ival := 0 })
      -- timeit_builtin (lines 472-487); the external wall clock is
      -- modelled as always reading zero milliseconds
      | "timeit" =>
        if list_length s e - 1 ≠ 1 then .ok (nilIdx, s.report msgBuiltinParams)
        else
          match run fuel (.eval (list_index s e 1)) s with
          | .error err => .error err
          | .ok (_, s1) => .ok (s1.alloc { type := .String, sval := "0.000000" })
      -- sleep_builtin (lines 489-496); blocking is not observable here
      | "sleep" =>
        if list_length s e - 1 ≠ 1 then .ok (nilIdx, s.report msgBuiltinParams)
        else .ok (nilIdx, s)
      | _ => .ok (nilIdx, s)
    -- binary_builtin (lines 344-356): exactly two operands, evaluated in
    -- order, then handed to the external two-operand collaborator
    | .binaryOp name e =>
      let l := (s.getObj e).lval
      if l.length ≠ 3 then .ok (nilIdx, s.report (msgBinaryArity name))
      else
        match run fuel (.eval (l.getD 1 nilIdx)) s with
        | .error err => .error err
        | .ok (a, s1) =>
          match run fuel (.eval (l.getD 2 nilIdx)) s1 with
          | .error err => .error err
          | .ok (b, s2) => .ok (binary_op_handler name s2 a b)
    -- the operand loop of add_objects (lines 218-224)
    | .addLoop acc args =>
      match args with
      | [] => .ok (acc, s)
      | a :: rest =>
        match run fuel (.eval a) s with
        | .error err => .error err
        | .ok (v, s1) =>
          let (r, s2) := add_two_objects s1 acc v
          run fuel (.addLoop r rest) s2
    -- the operand loop of sub_objects (lines 237-242)
    | .subLoop acc args =>
      match args with
      | [] => .ok (acc, s)
      | a :: rest =>
        match run fuel (.eval a) s with
        | .error err => .error err
        | .ok (v, s1) =>
          let (r, s2) := sub_two_objects s1 acc v
          run fuel (.subLoop r rest) s2
    -- the operand loop of print_builtin (lines 271-278); the trailing
    -- newline of line 279 is recorded when the loop ends
    | .printLoop args =>
      match args with
      | [] => .ok (nilIdx, s.report "\n")
      | a :: rest =>
        match run fuel (.eval a) s with
        | .error err => .error err
        | .ok (v, s1) => run fuel (.printLoop rest) (s1.report (obj_to_string s1 v))
    -- the pair loop of cond_builtin (lines 438-449); the else sentinel is
    -- recognized by identity
    | .condLoop e i =>
      if i < list_length s e then
        let condPair := list_index s e i
        match run fuel (.eval (list_index s condPair 0)) s with
        | .error err => .error err
        | .ok (cv, s1) =>
          if cv = elseIdx ∨ is_truthy cv then
            run fuel (.eval (list_index s1 condPair 1)) s1
          else run fuel (.condLoop e (i + 1)) s1
      else .ok (nilIdx, s)
    -- call_function entry (lines 501-514): the depth guard fires before
    -- anything is evaluated; named functions skip the name slot of the
    -- parameter list, lambdas do not have one
    | .callFunction fobjIdx argsIdx =>
      if s.callStackSize > MAX_STACK_SIZE then
        .ok (nilIdx, s.report msgMaxStack)
      else
        run fuel (.bindParams fobjIdx argsIdx
          (if (s.getObj fobjIdx).lambdaFlag then 0 else 1) []) s
    -- the parameter loop of call_function (lines 528-595).  The provided
    -- argument for parameter position i is fetched with vector::at at
    -- offset (is_lambda ? 1 : 0) + i, while the fewer-arguments test of
    -- line 586 compares i itself with the provided length; an at() out of
    -- range throws and terminates the process (Err.crash).
    | .bindParams fobjIdx argsIdx argIdx locals =>
      let fobj := s.getObj fobjIdx
      let arglistl := (s.getObj fobj.funargs).lval
      let providedl := (s.getObj argsIdx).lval
      if argIdx < arglistl.length then
        let argI := arglistl.getD argIdx nilIdx
        if argI = dotIdx then
          if argIdx ≠ arglistl.length - 2 then
            .ok (nilIdx, s.report msgDotDef)
          else
            let vargIdx := arglistl.getD (argIdx + 1) nilIdx
            -- create_data_list_obj; Modelled from the spec: the collected
            -- variadic list is bound through set_symbol_local, whose
            -- eval_expr pass must evaluate the collected elements once
            -- (spec: rest is bound to the list (2 3)), so the fresh list
            -- carries the list-literal flag
            let (vl, s0) := s.alloc { type := .List, listLiteral := true }
            run fuel (.collectVariadic fobjIdx argsIdx vargIdx vl argIdx locals) s0
        else
          let localName := (s.getObj argI).sval
          if argIdx ≥ providedl.length then
            -- lines 586-589: fill in nils for the remaining parameters
            match run fuel (.eval nilIdx) s with
            | .error err => .error err
            | .ok (v, s1) =>
              run fuel (.bindParams fobjIdx argsIdx (argIdx + 1) (insertA locals localName v)) s1
          else
            match providedl.get? ((if fobj.lambdaFlag then 1 else 0) + argIdx) with
            | none => .error .crash
            | some pArg =>
              match run fuel (.eval pArg) s with
              | .error err => .error err
              | .ok (v, s1) =>
                run fuel (.bindParams fobjIdx argsIdx (argIdx + 1) (insertA locals localName v)) s1
      else run fuel (.enterBody fobjIdx locals) s
    -- the variadic collection loop of call_function (lines 546-584)
    | .collectVariadic fobjIdx argsIdx vargIdx vl pIdx locals =>
      let providedl := (s.getObj argsIdx).lval
      if pIdx < providedl.length then
        let pArg := providedl.getD pIdx nilIdx
        if pArg = dotIdx then
          if pIdx ≠ providedl.length - 2 then
            .ok (nilIdx, s.report msgDotCallPos)
          else
            match run fuel (.eval (providedl.getD (pIdx + 1) nilIdx)) s with
            | .error err => .error err
            | .ok (pv, s1) =>
              if (s1.getObj pv).type ≠ .List then
                .ok (nilIdx, s1.report msgDotCallList)
              else
                -- splice the members of the evaluated list, then break
                let s2 := s1.setObj vl { s1.getObj vl with lval := (s1.getObj vl).lval ++ (s1.getObj pv).lval }
                match run fuel (.eval vl) s2 with
                | .error err => .error err
                | .ok (v, s3) =>
                  run fuel (.enterBody fobjIdx
                    (insertA locals ((s3.getObj vargIdx).sval) v)) s3
        else
          let s1 := s.setObj vl { s.getObj vl with lval := (s.getObj vl).lval ++ [pArg] }
          run fuel (.collectVariadic fobjIdx argsIdx vargIdx vl (pIdx + 1) locals) s1
      else
        -- loop exhausted: bind the collected list (set_symbol_local
        -- evaluates it), then leave the parameter loop
        match run fuel (.eval vl) s with
        | .error err => .error err
        | .ok (v, s1) =>
          run fuel (.enterBody fobjIdx (insertA locals ((s1.getObj vargIdx).sval) v)) s1
    -- call_function body part (lines 596-609): increment the counter,
    -- enter the scope filled with the bindings, evaluate the body members
    -- from index 2 on, then exit the scope and decrement
    | .enterBody fobjIdx locals =>
      let bodyl := (s.getObj (s.getObj fobjIdx).funbody).lval
      let s1 := { (enter_scope_with s locals) with callStackSize := s.callStackSize + 1 }
      match run fuel (.evalBody (bodyl.drop 2) nilIdx) s1 with
      | .error err => .error err
      | .ok (r, s2) =>
        .ok (r, { (exit_scope s2) with callStackSize := s2.callStackSize - 1 })
    -- the body loop (lines 600-606): sequential evaluation, the value of
    -- the last member is the result, an empty body yields nil
    | .evalBody es last =>
      match es with
      | [] => .ok (last, s)
      | e1 :: rest =>
        match run fuel (.eval e1) s with
        | .error err => .error err
        | .ok (r, s1) => run fuel (.evalBody rest r) s1

/-- The heap produced by init_interp (lines 694-727): the five shared
singletons followed by the builtin function objects in installation
order.  Singletons and builtin objects are in final form (Modelled from
the spec: the singletons are constructed once, shared by reference and
never mutated, so they carry OF_EVALUATED; builtin objects must be
Function-typed to pass is_callable and carry OF_BUILTIN). -/
def initHeap : List Obj :=
  [ { type := .Nil, evaluated := true },
    { type := .Bool, bval := true, evaluated := true },
    { type := .Bool, bval := false, evaluated := true },
    { type := .Symbol, sval := ".", evaluated := true },
    { type := .Symbol, sval := ".", evaluated := true },
    { type := .Function, builtinName := "+", builtinFlag := true, evaluated := true },
    { type := .Function, builtinName := "-", builtinFlag := true, evaluated := true },
    { type := .Function, builtinName := "/", builtinFlag := true, evaluated := true },
    { type := .Function, builtinName := "*", builtinFlag := true, evaluated := true },
    { type := .Function, builtinName := "**", builtinFlag := true, evaluated := true },
    { type := .Function, builtinName := "=", builtinFlag := true, evaluated := true },
    { type := .Function, builtinName := ">", builtinFlag := true, evaluated := true },
    { type := .Function, builtinName := "<", builtinFlag := true, evaluated := true },
    { type := .Function, builtinName := "setq", builtinFlag := true, evaluated := true },
    { type := .Function, builtinName := "print", builtinFlag := true, evaluated := true },
    { type := .Function, builtinName := "defun", builtinFlag := true, evaluated := true },
    { type := .Function, builtinName := "lambda", builtinFlag := true, evaluated := true },
    { type := .Function, builtinName := "if", builtinFlag := true, evaluated := true },
    { type := .Function, builtinName := "car", builtinFlag := true, evaluated := true },
    { type := .Function, builtinName := "cdr", builtinFlag := true, evaluated := true },
    { type := .Function, builtinName := "cadr", builtinFlag := true, evaluated := true },
    { type := .Function, builtinName := "cond", builtinFlag := true, evaluated := true },
    { type := .Function, builtinName := "memtotal", builtinFlag := true, evaluated := true },
    { type := .Function, builtinName := "timeit", builtinFlag := true, evaluated := true },
    { type := .Function, builtinName := "sleep", builtinFlag := true, evaluated := true } ]

/-- The global symbol table seeded by init_interp (the startup library
file ./stdlib/basic.lisp is an external collaborator and is not part of
the core under verification). -/
def initFrame : Frame :=
  [ ("nil", 0), ("true", 1), ("false", 2), ("else", 4),
    ("+", 5), ("-", 6), ("/", 7), ("*", 8), ("**", 9), ("=", 10),
    (">", 11), ("<", 12), ("setq", 13), ("print", 14), ("defun", 15),
    ("lambda", 16), ("if", 17), ("car", 18), ("cdr", 19), ("cadr", 20),
    ("cond", 21), ("memtotal", 22), ("timeit", 23), ("sleep", 24) ]

/-- Interpreter state right after init_interp. -/
def initState : IState :=
  { heap := initHeap, frames := [initFrame], callStackSize := 0, out := [] }

/-- Extend the initial state with reader-produced expression objects
(appended to the heap starting at address 25). -/
def withObjs (objs : List Obj) : IState :=
  { initState with heap := initHeap ++ objs }

/-- Result address of a finished run, if it finished. -/
def resultIdx (r : Except Err (Nat × IState)) : Option Nat :=
  match r with
  | .ok (i, _) => some i
  | .error _ => none

/-- Result object of a finished run, if it finished. -/
def resultObj (r : Except Err (Nat × IState)) : Option Obj :=
  match r with
  | .ok (i, s) => some (s.getObj i)
  | .error _ => none

/-- Printed output of a finished run, if it finished. -/
def resultOut (r : Except Err (Nat × IState)) : Option (List String) :=
  match r with
  | .ok (_, s) => some s.out
  | .error _ => none

/-- Final state of a finished run, if it finished. -/
def okState (r : Except Err (Nat × IState)) : Option IState :=
  match r with
  | .ok (_, s) => some s
  | .error _ => none

/-- The OF_EVALUATED identity short-circuit of eval_expr is the first
statement of the function, so it applies at every fuel value. -/
theorem run_eval_evaluated (fuel : Nat) (s : IState) (e : Nat)
    (h : (s.getObj e).evaluated = true) : run fuel (.eval e) s = .ok (e, s) := by
  cases fuel <;> simp [run, h]

/-- Reporting text does not change the scope chain or the counter. -/
theorem report_state (s : IState) (m : String) :
    (s.report m).callStackSize = s.callStackSize ∧
      (s.report m).frames = s.frames ∧ (s.report m).heap = s.heap :=
  ⟨rfl, rfl, rfl⟩

/-- Heap writes do not change the scope chain or the counter. -/
theorem setObj_state (s : IState) (i : Nat) (o : Obj) :
    (s.setObj i o).callStackSize = s.callStackSize ∧ (s.setObj i o).frames = s.frames :=
  ⟨rfl, rfl⟩

/-- set_symbol rewrites the innermost frame only: the counter, the number
of frames and all outer frames are unchanged. -/
theorem set_symbol_state (s : IState) (k : String) (v : Nat) :
    (set_symbol s k v).callStackSize = s.callStackSize ∧
      (set_symbol s k v).frames.length = s.frames.length ∧
      (set_symbol s k v).frames.tail = s.frames.tail := by
  unfold set_symbol
  rcases hf : s.frames with _ | ⟨f, rest⟩ <;> simp [hf]

/-- The pure collaborator for `+` does not touch the scope chain or the
counter (it at most allocates). -/
theorem add_two_objects_state (s : IState) (a b : Nat) :
    (add_two_objects s a b).2.callStackSize = s.callStackSize ∧
      (add_two_objects s a b).2.frames = s.frames := by
  simp only [add_two_objects]
  split <;> exact ⟨rfl, rfl⟩

/-- The pure collaborator for `-` does not touch the scope chain or the
counter. -/
theorem sub_two_objects_state (s : IState) (a b : Nat) :
    (sub_two_objects s a b).2.callStackSize = s.callStackSize ∧
      (sub_two_objects s a b).2.frames = s.frames := by
  simp only [sub_two_objects]
  split <;> exact ⟨rfl, rfl⟩

/-- The pure two-operand collaborators do not touch the scope chain or
the counter. -/
theorem binary_op_handler_state (name : String) (s : IState) (a b : Nat) :
    (binary_op_handler name s a b).2.callStackSize = s.callStackSize ∧
      (binary_op_handler name s a b).2.frames = s.frames := by
  simp only [binary_op_handler]
  split
  · split <;> exact ⟨rfl, rfl⟩
  · exact ⟨rfl, rfl⟩

/-- Every task that finishes normally restores the call-depth counter and
the length of the scope chain: the increment of call_function is always
paired with the decrement, builtin handlers never touch the counter, and
entered scopes are always exited. -/
theorem run_preserves :
    ∀ fuel t s r s1, run fuel t s = .ok (r, s1) →
      s1.callStackSize = s.callStackSize ∧ s1.frames.length = s.frames.length := by
  intro fuel
  induction fuel with
  | zero =>
    intro t s r s1 h
    cases t
    case eval e =>
      simp only [run] at h
      split at h
      · simp only [Except.ok.injEq, Prod.mk.injEq] at h
        obtain ⟨-, h2⟩ := h
        subst h2
        exact ⟨rfl, rfl⟩
      · exact absurd h (by simp)
    all_goals exact absurd h (by simp [run])
  | succ n ih =>
    intro t s r s1 h
    cases t
    case eval e =>
      simp only [run] at h
      split at h
      · simp only [Except.ok.injEq, Prod.mk.injEq] at h
        obtain ⟨-, h2⟩ := h
        subst h2
        exact ⟨rfl, rfl⟩
      · split at h
        · -- Symbol
          split at h
          · split at h
            · exact absurd h (by simp)
            · rename_i r2 s2 heq
              obtain ⟨hc, hf⟩ := ih _ _ _ _ heq
              simp only [Except.ok.injEq, Prod.mk.injEq] at h
              obtain ⟨-, h2⟩ := h
              subst h2
              refine ⟨?_, ?_⟩
              · rw [(set_symbol_state _ _ _).1, (setObj_state _ _ _).1, hc]
              · rw [(set_symbol_state _ _ _).2.1]
                simp only [IState.setObj]
                rw [hf]
          · simp only [Except.ok.injEq, Prod.mk.injEq] at h
            obtain ⟨-, h2⟩ := h
            subst h2
            exact ⟨rfl, rfl⟩
        · -- List
          split at h
          · exact ih _ _ _ _ h
          · split at h
            · simp only [Except.ok.injEq, Prod.mk.injEq] at h
              obtain ⟨-, h2⟩ := h
              subst h2
              exact ⟨rfl, rfl⟩
            · split at h
              · exact absurd h (by simp)
              · rename_i c s2 heq
                obtain ⟨hc1, hf1⟩ := ih _ _ _ _ heq
                obtain ⟨hc2, hf2⟩ := ih _ _ _ _ h
                exact ⟨hc2.trans hc1, hf2.trans hf1⟩
        · -- default
          simp only [Except.ok.injEq, Prod.mk.injEq] at h
          obtain ⟨-, h2⟩ := h
          subst h2
          exact ⟨rfl, rfl⟩
    case evalLitElems e i =>
      simp only [run] at h
      split at h
      · split at h
        · exact absurd h (by simp)
        · rename_i r2 s2 heq
          obtain ⟨hc1, hf1⟩ := ih _ _ _ _ heq
          obtain ⟨hc2, hf2⟩ := ih _ _ _ _ h
          exact ⟨hc2.trans hc1, hf2.trans hf1⟩
      · simp only [Except.ok.injEq, Prod.mk.injEq] at h
        obtain ⟨-, h2⟩ := h
        subst h2
        exact ⟨rfl, rfl⟩
    case applyCallable c e =>
      simp only [run] at h
      split at h
      · simp only [Except.ok.injEq, Prod.mk.injEq] at h
        obtain ⟨-, h2⟩ := h
        subst h2
        exact ⟨rfl, rfl⟩
      · split at h
        · exact ih _ _ _ _ h
        · exact ih _ _ _ _ h
    case builtinCall name e =>
      simp only [run] at h
      split at h
      -- "+"
      · split at h
        · simp only [Except.ok.injEq, Prod.mk.injEq] at h
          obtain ⟨-, h2⟩ := h
          subst h2
          exact ⟨rfl, rfl⟩
        · split at h
          · exact absurd h (by simp)
          · rename_i a0 s2 heq
            obtain ⟨hc1, hf1⟩ := ih _ _ _ _ heq
            obtain ⟨hc2, hf2⟩ := ih _ _ _ _ h
            exact ⟨hc2.trans hc1, hf2.trans hf1⟩
      -- "-"
      · split at h
        · simp only [Except.ok.injEq, Prod.mk.injEq] at h
          obtain ⟨-, h2⟩ := h
          subst h2
          exact ⟨rfl, rfl⟩
        · split at h
          · exact absurd h (by simp)
          · rename_i a0 s2 heq
            obtain ⟨hc1, hf1⟩ := ih _ _ _ _ heq
            obtain ⟨hc2, hf2⟩ := ih _ _ _ _ h
            exact ⟨hc2.trans hc1, hf2.trans hf1⟩
      -- the six wrappers delegating to binary_builtin
      · exact ih _ _ _ _ h
      · exact ih _ _ _ _ h
      · exact ih _ _ _ _ h
      · exact ih _ _ _ _ h
      · exact ih _ _ _ _ h
      · exact ih _ _ _ _ h
      -- setq
      · split at h
        · simp only [Except.ok.injEq, Prod.mk.injEq] at h
          obtain ⟨-, h2⟩ := h
          subst h2
          exact ⟨rfl, rfl⟩
        · split at h
          · exact absurd h (by simp)
          · rename_i v s2 heq
            obtain ⟨hc1, hf1⟩ := ih _ _ _ _ heq
            simp only [Except.ok.injEq, Prod.mk.injEq] at h
            obtain ⟨-, h2⟩ := h
            subst h2
            refine ⟨?_, ?_⟩
            · rw [(set_symbol_state _ _ _).1, hc1]
            · rw [(set_symbol_state _ _ _).2.1, hf1]
      -- print
      · exact ih _ _ _ _ h
      -- defun
      · split at h
        · simp only [Except.ok.injEq, Prod.mk.injEq] at h
          obtain ⟨-, h2⟩ := h
          subst h2
          exact ⟨rfl, rfl⟩
        · split at h
          · simp only [Except.ok.injEq, Prod.mk.injEq] at h
            obtain ⟨-, h2⟩ := h
            subst h2
            exact ⟨rfl, rfl⟩
          · split at h
            · exact absurd h (by simp)
            · simp only [Except.ok.injEq, Prod.mk.injEq] at h
              obtain ⟨-, h2⟩ := h
              subst h2
              refine ⟨?_, ?_⟩
              · rw [(set_symbol_state _ _ _).1]
                rfl
              · rw [(set_symbol_state _ _ _).2.1]
                rfl
      -- lambda
      · split at h
        · simp only [Except.ok.injEq, Prod.mk.injEq] at h
          obtain ⟨-, h2⟩ := h
          subst h2
          exact ⟨rfl, rfl⟩
        · split at h
          · simp only [Except.ok.injEq, Prod.mk.injEq] at h
            obtain ⟨-, h2⟩ := h
            subst h2
            exact ⟨rfl, rfl⟩
          · simp only [Except.ok.injEq, Prod.mk.injEq] at h
            obtain ⟨-, h2⟩ := h
            subst h2
            exact ⟨rfl, rfl⟩
      -- if
      · split at h
        · simp only [Except.ok.injEq, Prod.mk.injEq] at h
          obtain ⟨-, h2⟩ := h
          subst h2
          exact ⟨rfl, rfl⟩
        · split at h
          · exact absurd h (by simp)
          · rename_i c s2 heq
            obtain ⟨hc1, hf1⟩ := ih _ _ _ _ heq
            split at h
            · obtain ⟨hc2, hf2⟩ := ih _ _ _ _ h
              exact ⟨hc2.trans hc1, hf2.trans hf1⟩
            · obtain ⟨hc2, hf2⟩ := ih _ _ _ _ h
              exact ⟨hc2.trans hc1, hf2.trans hf1⟩
      -- car
      · split at h
        · exact absurd h (by simp)
        · rename_i a s2 heq
          obtain ⟨hc1, hf1⟩ := ih _ _ _ _ heq
          split at h
          · simp only [Except.ok.injEq, Prod.mk.injEq] at h
            obtain ⟨-, h2⟩ := h
            subst h2
            exact ⟨hc1, hf1⟩
          · split at h
            · simp only [Except.ok.injEq, Prod.mk.injEq] at h
              obtain ⟨-, h2⟩ := h
              subst h2
              exact ⟨hc1, hf1⟩
            · simp only [Except.ok.injEq, Prod.mk.injEq] at h
              obtain ⟨-, h2⟩ := h
              subst h2
              exact ⟨hc1, hf1⟩
      -- cadr
      · split at h
        · exact absurd h (by simp)
        · rename_i a s2 heq
          obtain ⟨hc1, hf1⟩ := ih _ _ _ _ heq
          split at h
          · simp only [Except.ok.injEq, Prod.mk.injEq] at h
            obtain ⟨-, h2⟩ := h
            subst h2
            exact ⟨hc1, hf1⟩
          · split at h
            · simp only [Except.ok.injEq, Prod.mk.injEq] at h
              obtain ⟨-, h2⟩ := h
              subst h2
              exact ⟨hc1, hf1⟩
            · simp only [Except.ok.injEq, Prod.mk.injEq] at h
              obtain ⟨-, h2⟩ := h
              subst h2
              exact ⟨hc1, hf1⟩
      -- cdr
      · split at h
        · exact absurd h (by simp)
        · rename_i a s2 heq
          obtain ⟨hc1, hf1⟩ := ih _ _ _ _ heq
          split at h
          · simp only [Except.ok.injEq, Prod.mk.injEq] at h
            obtain ⟨-, h2⟩ := h
            subst h2
            exact ⟨hc1, hf1⟩
          · split at h
            · simp only [Except.ok.injEq, Prod.mk.injEq] at h
              obtain ⟨-, h2⟩ := h
              subst h2
              exact ⟨hc1, hf1⟩
            · simp only [Except.ok.injEq, Prod.mk.injEq] at h
              obtain ⟨-, h2⟩ := h
              subst h2
              exact ⟨hc1, hf1⟩
      -- cond
      · split at h
        · simp only [Except.ok.injEq, Prod.mk.injEq] at h
          obtain ⟨-, h2⟩ := h
          subst h2
          exact ⟨rfl, rfl⟩
        · exact ih _ _ _ _ h
      -- memtotal
      · simp only [Except.ok.injEq, Prod.ext_iff] at h
        obtain ⟨-, h2⟩ := h
        subst h2
        exact ⟨rfl, rfl⟩
      -- timeit
      · split at h
        · simp only [Except.ok.injEq, Prod.mk.injEq] at h
          obtain ⟨-, h2⟩ := h
          subst h2
          exact ⟨rfl, rfl⟩
        · split at h
          · exact absurd h (by simp)
          · rename_i v s2 heq
            obtain ⟨hc1, hf1⟩ := ih _ _ _ _ heq
            simp only [Except.ok.injEq, Prod.ext_iff] at h
            obtain ⟨-, h2⟩ := h
            subst h2
            exact ⟨hc1, hf1⟩
      -- sleep
      · split at h
        · simp only [Except.ok.injEq, Prod.mk.injEq] at h
          obtain ⟨-, h2⟩ := h
          subst h2
          exact ⟨rfl, rfl⟩
        · simp only [Except.ok.injEq, Prod.mk.injEq] at h
          obtain ⟨-, h2⟩ := h
          subst h2
          exact ⟨rfl, rfl⟩
      -- unknown builtin name
      · simp only [Except.ok.injEq, Prod.mk.injEq] at h
        obtain ⟨-, h2⟩ := h
        subst h2
        exact ⟨rfl, rfl⟩
    case binaryOp name e =>
      simp only [run] at h
      split at h
      · simp only [Except.ok.injEq, Prod.mk.injEq] at h
        obtain ⟨-, h2⟩ := h
        subst h2
        exact ⟨rfl, rfl⟩
      · split at h
        · exact absurd h (by simp)
        · rename_i a s2 heq
          obtain ⟨hc1, hf1⟩ := ih _ _ _ _ heq
          split at h
          · exact absurd h (by simp)
          · rename_i b s3 heq2
            obtain ⟨hc2, hf2⟩ := ih _ _ _ _ heq2
            simp only [Except.ok.injEq, Prod.ext_iff] at h
            obtain ⟨-, h2⟩ := h
            subst h2
            refine ⟨?_, ?_⟩
            · rw [(binary_op_handler_state _ _ _ _).1, hc2, hc1]
            · rw [(binary_op_handler_state _ _ _ _).2, hf2, hf1]
    case addLoop acc args =>
      simp only [run] at h
      split at h
      · simp only [Except.ok.injEq, Prod.mk.injEq] at h
        obtain ⟨-, h2⟩ := h
        subst h2
        exact ⟨rfl, rfl⟩
      · split at h
        · exact absurd h (by simp)
        · rename_i v s2 heq
          obtain ⟨hc1, hf1⟩ := ih _ _ _ _ heq
          obtain ⟨hc2, hf2⟩ := ih _ _ _ _ h
          refine ⟨?_, ?_⟩
          · rw [hc2, (add_two_objects_state _ _ _).1, hc1]
          · rw [hf2, (add_two_objects_state _ _ _).2, hf1]
    case subLoop acc args =>
      simp only [run] at h
      split at h
      · simp only [Except.ok.injEq, Prod.mk.injEq] at h
        obtain ⟨-, h2⟩ := h
        subst h2
        exact ⟨rfl, rfl⟩
      · split at h
        · exact absurd h (by simp)
        · rename_i v s2 heq
          obtain ⟨hc1, hf1⟩ := ih _ _ _ _ heq
          obtain ⟨hc2, hf2⟩ := ih _ _ _ _ h
          refine ⟨?_, ?_⟩
          · rw [hc2, (sub_two_objects_state _ _ _).1, hc1]
          · rw [hf2, (sub_two_objects_state _ _ _).2, hf1]
    case printLoop args =>
      simp only [run] at h
      split at h
      · simp only [Except.ok.injEq, Prod.mk.injEq] at h
        obtain ⟨-, h2⟩ := h
        subst h2
        exact ⟨rfl, rfl⟩
      · split at h
        · exact absurd h (by simp)
        · rename_i v s2 heq
          obtain ⟨hc1, hf1⟩ := ih _ _ _ _ heq
          obtain ⟨hc2, hf2⟩ := ih _ _ _ _ h
          exact ⟨hc2.trans hc1, hf2.trans hf1⟩
    case condLoop e i =>
      simp only [run] at h
      split at h
      · split at h
        · exact absurd h (by simp)
        · rename_i cv s2 heq
          obtain ⟨hc1, hf1⟩ := ih _ _ _ _ heq
          split at h
          · obtain ⟨hc2, hf2⟩ := ih _ _ _ _ h
            exact ⟨hc2.trans hc1, hf2.trans hf1⟩
          · obtain ⟨hc2, hf2⟩ := ih _ _ _ _ h
            exact ⟨hc2.trans hc1, hf2.trans hf1⟩
      · simp only [Except.ok.injEq, Prod.mk.injEq] at h
        obtain ⟨-, h2⟩ := h
        subst h2
        exact ⟨rfl, rfl⟩
    case callFunction fobj argsList =>
      simp only [run] at h
      split at h
      · simp only [Except.ok.injEq, Prod.mk.injEq] at h
        obtain ⟨-, h2⟩ := h
        subst h2
        exact ⟨rfl, rfl⟩
      · exact ih _ _ _ _ h
    case bindParams fobj argsList argIdx locals =>
      simp only [run] at h
      split at h
      · split at h
        · split at h
          · simp only [Except.ok.injEq, Prod.mk.injEq] at h
            obtain ⟨-, h2⟩ := h
            subst h2
            exact ⟨rfl, rfl⟩
          · obtain ⟨hc1, hf1⟩ := ih _ _ _ _ h
            exact ⟨hc1, hf1⟩
        · split at h
          · split at h
            · exact absurd h (by simp)
            · rename_i v s2 heq
              obtain ⟨hc1, hf1⟩ := ih _ _ _ _ heq
              obtain ⟨hc2, hf2⟩ := ih _ _ _ _ h
              exact ⟨hc2.trans hc1, hf2.trans hf1⟩
          · split at h
            · exact absurd h (by simp)
            · split at h
              · exact absurd h (by simp)
              · rename_i v s2 heq
                obtain ⟨hc1, hf1⟩ := ih _ _ _ _ heq
                obtain ⟨hc2, hf2⟩ := ih _ _ _ _ h
                exact ⟨hc2.trans hc1, hf2.trans hf1⟩
      · exact ih _ _ _ _ h
    case collectVariadic fobj argsList vargIdx vl pIdx locals =>
      simp only [run] at h
      split at h
      · split at h
        · split at h
          · simp only [Except.ok.injEq, Prod.mk.injEq] at h
            obtain ⟨-, h2⟩ := h
            subst h2
            exact ⟨rfl, rfl⟩
          · split at h
            · exact absurd h (by simp)
            · rename_i pv s2 heq
              obtain ⟨hc1, hf1⟩ := ih _ _ _ _ heq
              split at h
              · simp only [Except.ok.injEq, Prod.mk.injEq] at h
                obtain ⟨-, h2⟩ := h
                subst h2
                exact ⟨hc1, hf1⟩
              · split at h
                · exact absurd h (by simp)
                · rename_i v s3 heq2
                  obtain ⟨hc2, hf2⟩ := ih _ _ _ _ heq2
                  obtain ⟨hc3, hf3⟩ := ih _ _ _ _ h
                  exact ⟨hc3.trans (hc2.trans hc1), hf3.trans (hf2.trans hf1)⟩
        · obtain ⟨hc1, hf1⟩ := ih _ _ _ _ h
          exact ⟨hc1, hf1⟩
      · split at h
        · exact absurd h (by simp)
        · rename_i v s2 heq
          obtain ⟨hc1, hf1⟩ := ih _ _ _ _ heq
          obtain ⟨hc2, hf2⟩ := ih _ _ _ _ h
          exact ⟨hc2.trans hc1, hf2.trans hf1⟩
    case enterBody fobj locals =>
      simp only [run] at h
      split at h
      · exact absurd h (by simp)
      · rename_i r2 s2 heq
        obtain ⟨hc, hf⟩ := ih _ _ _ _ heq
        simp only [Except.ok.injEq, Prod.mk.injEq] at h
        obtain ⟨-, h2⟩ := h
        subst h2
        constructor
        · show s2.callStackSize - 1 = s.callStackSize
          have h3 : s2.callStackSize = s.callStackSize + 1 := hc
          omega
        · show s2.frames.tail.length = s.frames.length
          have h4 : s2.frames.length = s.frames.length + 1 := by
            rw [hf]
            simp [enter_scope_with]
          rw [List.length_tail, h4]
          omega
    case evalBody es last =>
      simp only [run] at h
      split at h
      · simp only [Except.ok.injEq, Prod.mk.injEq] at h
        obtain ⟨-, h2⟩ := h
        subst h2
        exact ⟨rfl, rfl⟩
      · split at h
        · exact absurd h (by simp)
        · rename_i r2 s2 heq
          obtain ⟨hc1, hf1⟩ := ih _ _ _ _ heq
          obtain ⟨hc2, hf2⟩ := ih _ _ _ _ h
          exact ⟨hc2.trans hc1, hf2.trans hf1⟩
/-- Reader output for the program of claim C2: a single symbol `y`, a name
bound nowhere. -/
def c2state : IState := withObjs [ { type := .Symbol, sval := "y" } ]

/-- Reader output for claim C3, lambda side: the call `((lambda (x) x))`
providing no argument for the one declared parameter.  Addresses: 25 the
symbol lambda, 26 the symbol x, 27 the parameter list (x), 28 the lambda
form, 29 the call form. -/
def c3LambdaState : IState := withObjs
  [ { type := .Symbol, sval := "lambda" },
    { type := .Symbol, sval := "x" },
    { type := .List, lval := [26] },
    { type := .List, lval := [25, 27, 26] },
    { type := .List, lval := [28] } ]

/-- Reader output for claim C3, named side: `(defun (g x) x)` then the
call `(g)` providing no argument.  Addresses: 25 defun, 26 g, 27 x,
28 the definition list (g x), 29 the defun form, 30 the call (g). -/
def c3DefunState : IState := withObjs
  [ { type := .Symbol, sval := "defun" },
    { type := .Symbol, sval := "g" },
    { type := .Symbol, sval := "x" },
    { type := .List, lval := [26, 27] },
    { type := .List, lval := [25, 28, 27] },
    { type := .List, lval := [26] } ]

/-- Reader output for claim C6: the global name x is bound to the not yet
evaluated form `(print "hi")` (addresses: 25 print, 26 the string, 27 the
bound form, 28 the symbol x being referenced). -/
def c6state : IState :=
  { heap := initHeap ++
      [ { type := .Symbol, sval := "print" },
        { type := .String, sval := "hi" },
        { type := .List, lval := [25, 26] },
        { type := .Symbol, sval := "x" } ],
    frames := [initFrame ++ [("x", 27)]], callStackSize := 0, out := [] }

/-- Reader output for claim C7: `(if true (print "a") (print "b"))` and
the wrong-arity form `(if 1 2)`.  Addresses: 25 if, 26 true, 27 print,
28 "a", 29 "b", 30 (print "a"), 31 (print "b"), 32 the full if form,
33 the number 1, 34 the number 2, 35 (if 1 2). -/
def c7state : IState := withObjs
  [ { type := .Symbol, sval := "if" },
    { type := .Symbol, sval := "true" },
    { type := .Symbol, sval := "print" },
    { type := .String, sval := "a" },
    { type := .String, sval := "b" },
    { type := .List, lval := [27, 28] },
    { type := .List, lval := [27, 29] },
    { type := .List, lval := [25, 26, 30, 31] },
    { type := .Number, ival := 1 },
    { type := .Number, ival := 2 },
    { type := .List, lval := [25, 33, 34] } ]

/-- Reader output for claim C8: `(+ 1 2 3)`, `(+ 1)` and `(* 2 3 4)`.
Addresses: 25 +, 26 one, 27 two, 28 three, 29 the three-operand sum,
30 the one-operand sum, 31 *, 32 four, 33 the three-operand product. -/
def c8state : IState := withObjs
  [ { type := .Symbol, sval := "+" },
    { type := .Number, ival := 1 },
    { type := .Number, ival := 2 },
    { type := .Number, ival := 3 },
    { type := .List, lval := [25, 26, 27, 28] },
    { type := .List, lval := [25, 26] },
    { type := .Symbol, sval := "*" },
    { type := .Number, ival := 4 },
    { type := .List, lval := [31, 27, 28, 32] } ]

/-- Claim C2 (code bug evidence): evaluating the unbound symbol `y`
returns the nil singleton with the state completely unchanged — in
particular nothing is printed, because get_symbol returns the nil object
(never a null pointer) for an absent name, so the branch of eval_expr
that would print the "Symbol not found" diagnostic can never run. -/
theorem C2_theorem : run 5 (.eval 25) c2state = .ok (nilIdx, c2state) := by decide

/-- Claim C3 (code bug evidence): the named function `(defun (g x) x)`
called as `(g)` binds the missing parameter to Nil and evaluates the body
(the call finishes and yields Nil), but the anonymous call
`((lambda (x) x))` with the same missing argument aborts the process: the
fewer-arguments test compares the parameter position against the provided
length without the lambda offset that the vector::at access then adds, so
the access is out of range and throws. -/
theorem C3_theorem :
    run 20 (.eval 29) c3LambdaState = .error .crash ∧
      resultIdx (run 30 (.evalBody [29, 30] nilIdx) c3DefunState) = some nilIdx :=
  ⟨by decide, by decide⟩

/-- Claim C6: an object carrying the Evaluated flag evaluates to itself
with the state untouched, at every fuel bound, hence any number of
repeated evaluations returns the identical object with no side effects;
concretely, referencing a symbol bound to a not yet evaluated
`(print "hi")` form prints once, and referencing it again returns the
memoized result with no further output and no state change at all. -/
theorem C6_theorem :
    (∀ fuel s e, (s.getObj e).evaluated = true → run fuel (.eval e) s = .ok (e, s)) ∧
      resultOut (run 20 (.eval 28) c6state) = some ["hi", "\n"] ∧
      (okState (run 20 (.eval 28) c6state)).map
        (fun s1 => decide (run 20 (.eval 28) s1 = .ok (nilIdx, s1))) = some true :=
  ⟨fun fuel s e h => run_eval_evaluated fuel s e h, by decide, by decide⟩

/-- Claim C6 witness: the nil singleton of the freshly initialized
interpreter is Evaluated, and evaluating it returns it unchanged. -/
theorem C6_witness : run 3 (.eval nilIdx) initState = .ok (nilIdx, initState) :=
  C6_theorem.1 3 initState nilIdx (by decide)

/-- Claim C7: `if` demands exactly three operands — any other operand
count is reported and yields nil, both in general and on the concrete
form `(if 1 2)` — and with three operands the condition is evaluated first
and exactly one branch is evaluated according to the truthiness test;
concretely `(if true (print "a") (print "b"))` prints `a` and nothing
from the else branch. -/
theorem C7_theorem :
    (resultOut (run 40 (.eval 32) c7state) = some ["a", "\n"] ∧
        resultIdx (run 40 (.eval 32) c7state) = some nilIdx) ∧
      run 40 (.eval 35) c7state = .ok (nilIdx, c7state.report msgIfArity) ∧
      (∀ fuel s e, (s.getObj e).lval.length ≠ 4 →
        run (fuel + 1) (.builtinCall "if" e) s = .ok (nilIdx, s.report msgIfArity)) ∧
      (∀ fuel s e, (s.getObj e).lval.length = 4 →
        run (fuel + 1) (.builtinCall "if" e) s =
          match run fuel (.eval ((s.getObj e).lval.getD 1 nilIdx)) s with
          | .error err => .error err
          | .ok (c, s1) =>
            if is_truthy c then run fuel (.eval ((s.getObj e).lval.getD 2 nilIdx)) s1
            else run fuel (.eval ((s.getObj e).lval.getD 3 nilIdx)) s1) := by
  refine ⟨⟨by decide, by decide⟩, by decide, ?_, ?_⟩
  · intro fuel s e h
    simp only [run]
    rw [if_pos h]
  · intro fuel s e h
    simp only [run]
    rw [if_neg (by simp [h])]

/-- Claim C7 witness: instantiating the general arity law at the
two-operand form `(if 1 2)` of the concrete heap. -/
theorem C7_witness :
    (c7state.getObj 35).lval.length ≠ 4 ∧
      run 3 (.builtinCall "if" 35) c7state = .ok (nilIdx, c7state.report msgIfArity) :=
  ⟨by decide, C7_theorem.2.2.1 2 c7state 35 (by decide)⟩

/-- Claim C8: the `+`/`-` builtins demand at least two operands and fold
the evaluated operands left to right, so `(+ 1 2 3)` yields the number 6
while `(+ 1)` is a reported error yielding nil; the `*`, `/`, `**`, `=`,
`>`, `<` builtins all route through binary_builtin, which demands exactly
two operands, so `(* 2 3 4)` is a reported error yielding nil. -/
theorem C8_theorem :
    resultObj (run 30 (.eval 29) c8state) =
        some { type := .Number, ival := 6, evaluated := true } ∧
      run 30 (.eval 30) c8state = .ok (nilIdx, c8state.report msgAddArity) ∧
      run 30 (.eval 33) c8state = .ok (nilIdx, c8state.report (msgBinaryArity "*")) ∧
      (∀ fuel s e, (s.getObj e).lval.length < 3 →
        run (fuel + 1) (.builtinCall "+" e) s = .ok (nilIdx, s.report msgAddArity)) ∧
      (∀ fuel s e, (s.getObj e).lval.length < 3 →
        run (fuel + 1) (.builtinCall "-" e) s = .ok (nilIdx, s.report msgSubArity)) ∧
      (∀ fuel s e name, (s.getObj e).lval.length ≠ 3 →
        run (fuel + 1) (.binaryOp name e) s = .ok (nilIdx, s.report (msgBinaryArity name))) ∧
      (∀ fuel s e, run (fuel + 1) (.builtinCall "*" e) s = run fuel (.binaryOp "*" e) s ∧
        run (fuel + 1) (.builtinCall "/" e) s = run fuel (.binaryOp "/" e) s ∧
        run (fuel + 1) (.builtinCall "**" e) s = run fuel (.binaryOp "**" e) s ∧
        run (fuel + 1) (.builtinCall "=" e) s = run fuel (.binaryOp "=" e) s ∧
        run (fuel + 1) (.builtinCall ">" e) s = run fuel (.binaryOp ">" e) s ∧
        run (fuel + 1) (.builtinCall "<" e) s = run fuel (.binaryOp "<" e) s) := by
  refine ⟨by decide, by decide, by decide, ?_, ?_, ?_, ?_⟩
  · intro fuel s e h
    simp only [run]
    rw [if_pos (by omega)]
  · intro fuel s e h
    simp only [run]
    rw [if_pos (by omega)]
  · intro fuel s e name h
    simp only [run]
    rw [if_pos h]
  · intro fuel s e
    exact ⟨rfl, rfl, rfl, rfl, rfl, rfl⟩

/-- Claim C8 witness: instantiating the general arity laws at the
one-operand sum `(+ 1)` and the three-operand product `(* 2 3 4)` of the
concrete heap. -/
theorem C8_witness :
    ((c8state.getObj 30).lval.length < 3 ∧
        run 3 (.builtinCall "+" 30) c8state = .ok (nilIdx, c8state.report msgAddArity)) ∧
      (c8state.getObj 33).lval.length ≠ 3 ∧
        run 3 (.binaryOp "*" 33) c8state = .ok (nilIdx, c8state.report (msgBinaryArity "*")) :=
  ⟨⟨by decide, C8_theorem.2.2.2.1 2 c8state 30 (by decide)⟩,
    by decide, C8_theorem.2.2.2.2.2.1 2 c8state 33 "*" (by decide)⟩

/-- Appending fresh objects to the heap leaves existing addresses
readable unchanged. -/
theorem getObj_append (s : IState) (objs : List Obj) (i : Nat) (h : i < s.heap.length) :
    IState.getObj { s with heap := s.heap ++ objs } i = s.getObj i := by
  simp only [IState.getObj]
  exact List.getD_append _ _ _ _ h

/-- Reading the address of a just-allocated object yields that object. -/
theorem getObj_append_self (s : IState) (o : Obj) :
    IState.getObj { s with heap := s.heap ++ [o] } s.heap.length = o := by
  simp only [IState.getObj]
  rw [List.getD_append_right _ _ _ _ (le_refl _)]
  simp

/-- Overwriting the just-allocated last object of the heap. -/
theorem set_append_length {α : Type} (l : List α) (o o2 : α) :
    (l ++ [o]).set l.length o2 = l ++ [o2] := by
  induction l with
  | nil => rfl
  | cons a l ih => simp [List.set, ih]

/-- Reader output for claim C1: the forms `(cdr (quote 1))`,
`(cdr (quote 1 2 3))` and `(cdr (quote))` over list literals.  Addresses:
25 cdr, 26 one, 27 the literal (1), 28 the call on it, 29 two, 30 three,
31 the literal (1 2 3), 32 the call on it, 33 the empty literal, 34 the
call on it. -/
def c1state : IState := withObjs
  [ { type := .Symbol, sval := "cdr" },
    { type := .Number, ival := 1 },
    { type := .List, lval := [26], listLiteral := true },
    { type := .List, lval := [25, 27] },
    { type := .Number, ival := 2 },
    { type := .Number, ival := 3 },
    { type := .List, lval := [26, 29, 30], listLiteral := true },
    { type := .List, lval := [25, 31] },
    { type := .List, lval := [], listLiteral := true },
    { type := .List, lval := [25, 33] } ]

/-- Claim C1 counterexample: the claim states that cdr of the
single-element list literal (1) yields that list unchanged (the object at
address 27 with its one element), but the code returns a freshly
allocated list with no elements: only the `length < 1` guard returns the
operand itself, so a singleton falls through to the copying loop, which
copies nothing. -/
theorem C1_counterexample :
    resultObj (run 20 (.eval 28) c1state) =
        some { type := .List, lval := [], evaluated := true } ∧
      resultIdx (run 20 (.eval 28) c1state) ≠ some 27 :=
  ⟨by decide, by decide⟩

/-- Claim C1 as amended: for a cdr call whose operand is an Evaluated
list object, a non-list operand is a reported error yielding nil; the
empty list is returned unchanged (the very same object); any nonempty
list — including a singleton — yields a freshly allocated list holding
the elements from index 1 onward, marked Evaluated (so a singleton yields
a fresh empty Evaluated list, not the operand itself); concretely cdr of
the literal (1 2 3) is a fresh Evaluated list with the elements 2 and 3,
and cdr of the empty literal returns the literal itself. -/
theorem C1_theorem :
    (∀ fuel s e c a, e < s.heap.length → a < s.heap.length →
      (s.getObj e).lval = [c, a] → (s.getObj a).evaluated = true →
      ((s.getObj a).type ≠ .List →
        run (fuel + 1) (.builtinCall "cdr" e) s =
          .ok (nilIdx,
            IState.report { s with heap := s.heap ++ [{ type := .List }] } msgCdrType)) ∧
      ((s.getObj a).type = .List → (s.getObj a).lval = [] →
        run (fuel + 1) (.builtinCall "cdr" e) s =
          .ok (a, { s with heap := s.heap ++ [{ type := .List }] })) ∧
      ((s.getObj a).type = .List → (s.getObj a).lval ≠ [] →
        run (fuel + 1) (.builtinCall "cdr" e) s =
          .ok (s.heap.length, { s with heap := s.heap ++
            [{ type := .List, lval := (s.getObj a).lval.drop 1, evaluated := true }] }))) ∧
      resultObj (run 20 (.eval 32) c1state) =
        some { type := .List, lval := [29, 30], evaluated := true } ∧
      resultIdx (run 20 (.eval 32) c1state) = some 35 ∧
      resultIdx (run 20 (.eval 34) c1state) = some 33 := by
  refine ⟨?_, by decide, by decide, by decide⟩
  intro fuel s e c a he ha hl hev
  have hindex : list_index { s with heap := s.heap ++ [({ type := .List } : Obj)] } e 1 = a := by
    simp only [list_index, getObj_append s _ e he, hl]
    rfl
  have hget : IState.getObj { s with heap := s.heap ++ [({ type := .List } : Obj)] } a
      = s.getObj a := getObj_append s _ a ha
  have heval : run fuel (.eval a) { s with heap := s.heap ++ [({ type := .List } : Obj)] }
      = .ok (a, { s with heap := s.heap ++ [({ type := .List } : Obj)] }) :=
    run_eval_evaluated _ _ _ (by rw [hget]; exact hev)
  refine ⟨?_, ?_, ?_⟩
  · intro hType
    simp only [run, IState.alloc, hindex, heval, hget]
    rw [if_pos hType]
  · intro hType hlv
    simp only [run, IState.alloc, hindex, heval, hget]
    rw [if_neg (by simp [hType]), if_pos (by simp [list_length, hget, hlv])]
  · intro hType hne
    simp only [run, IState.alloc, hindex, heval, hget]
    rw [if_neg (by simp [hType]),
      if_neg (by simp only [list_length, hget]; exact Nat.not_lt.mpr (List.length_pos.mpr hne))]
    simp only [IState.setObj, getObj_append_self, set_append_length]

/-- A copy of the C1 heap in which the singleton literal at address 27
already carries the Evaluated flag (as it would after its first
evaluation), so the amended cdr law applies to it directly. -/
def c1evState : IState := withObjs
  [ { type := .Symbol, sval := "cdr" },
    { type := .Number, ival := 1 },
    { type := .List, lval := [26], listLiteral := true, evaluated := true },
    { type := .List, lval := [25, 27] } ]

/-- Claim C1 witness: instantiating the amended law at the concrete call
`(cdr (quote 1))`: the singleton literal at address 27, already evaluated
in a copy of the heap where its Evaluated flag is set, yields the fresh
empty Evaluated list. -/
theorem C1_witness :
    run 3 (.builtinCall "cdr" 28) c1evState =
      .ok (c1evState.heap.length, { c1evState with heap := c1evState.heap ++
        [{ type := .List, lval := [], evaluated := true }] }) :=
  ((C1_theorem.1 2 c1evState 28 25 27 (by decide) (by decide) (by decide) (by decide)).2.2
    (by decide) (by decide))

/-- Reader output for claim C4: `(defun (fa a . rest) a)`,
`(defun (fr a . rest) rest)` and the calls `(fa 1 2 3)`, `(fr 1 2 3)`,
`(fr 1 . (quoted 2 3))`, `(fr 1 . (2 3))` and `(fa 1 . (quoted 2 3))`.
The dot in a form is the shared sentinel at address 3.  Addresses:
25 defun, 26 fa, 27 a, 28 rest, 29 the definition list of fa, 30 the
defun form of fa, 31 one, 32 two, 33 three, 34 the call (fa 1 2 3),
35 fr, 36 the definition list of fr, 37 the defun form of fr, 38 the
call (fr 1 2 3), 39 the quoted literal (2 3), 40 the dotted call of fr
on the quoted literal, 41 the plain call form (2 3), 42 the dotted call
of fr on the plain form, 43 the dotted call of fa on the quoted
literal. -/
def c4state : IState := withObjs
  [ { type := .Symbol, sval := "defun" },
    { type := .Symbol, sval := "fa" },
    { type := .Symbol, sval := "a" },
    { type := .Symbol, sval := "rest" },
    { type := .List, lval := [26, 27, 3, 28] },
    { type := .List, lval := [25, 29, 27] },
    { type := .Number, ival := 1 },
    { type := .Number, ival := 2 },
    { type := .Number, ival := 3 },
    { type := .List, lval := [26, 31, 32, 33] },
    { type := .Symbol, sval := "fr" },
    { type := .List, lval := [35, 27, 3, 28] },
    { type := .List, lval := [25, 36, 28] },
    { type := .List, lval := [35, 31, 32, 33] },
    { type := .List, lval := [32, 33], listLiteral := true },
    { type := .List, lval := [35, 31, 3, 39] },
    { type := .List, lval := [32, 33] },
    { type := .List, lval := [35, 31, 3, 41] },
    { type := .List, lval := [26, 31, 3, 39] } ]

/-- Claim C4 counterexample: with fr declared as `(defun (fr a . rest)
rest)`, the dotted call written exactly as `(fr 1 . (2 3))` does not
produce the binding rest = (2 3): the trailing `(2 3)` is a plain call
form, its evaluation reports that 2 is not callable and yields nil, the
nil fails the list check of the caller-side dot handling, a second
diagnostic is reported, and the whole call returns nil without entering
the function body. -/
theorem C4_counterexample :
    resultIdx (run 80 (.evalBody [30, 37, 42] nilIdx) c4state) = some nilIdx ∧
      resultOut (run 80 (.evalBody [30, 37, 42] nilIdx) c4state) =
        some [msgNotCallable, msgDotCallList] :=
  ⟨by decide, by decide⟩

/-- Claim C4 as amended: `(fa 1 2 3)` binds a to 1 (the body of fa
returns a) and `(fr 1 2 3)` binds rest to the collected Evaluated list
holding the objects 2 and 3 (the body of fr returns rest); the dotted
call produces exactly the same bindings when its trailing expression
evaluates to a list, as with the quoted literal in
`(fr 1 . (quoted 2 3))` and `(fa 1 . (quoted 2 3))` — but not with the
plain `(2 3)`, which is evaluated as a call form and rejected. -/
theorem C4_theorem :
    resultObj (run 80 (.evalBody [30, 37, 34] nilIdx) c4state) =
        some { type := .Number, ival := 1, evaluated := true } ∧
      resultObj (run 80 (.evalBody [30, 37, 38] nilIdx) c4state) =
        some { type := .List, lval := [32, 33], listLiteral := true, evaluated := true } ∧
      resultObj (run 80 (.evalBody [30, 37, 40] nilIdx) c4state) =
        some { type := .List, lval := [32, 33], listLiteral := true, evaluated := true } ∧
      resultObj (run 80 (.evalBody [30, 37, 43] nilIdx) c4state) =
        some { type := .Number, ival := 1, evaluated := true } :=
  ⟨by decide, by decide, by decide, by decide⟩

/-- Reader output for claim C5, with 255 user-function calls already
active: `(defun (f) (print "x") (f))` and the call `(f)`.  Addresses:
25 defun, 26 f, 27 the definition list (f), 28 print, 29 the string x,
30 the print form, 31 the call (f), 32 the defun form. -/
def c5state255 : IState :=
  { heap := initHeap ++
      [ { type := .Symbol, sval := "defun" },
        { type := .Symbol, sval := "f" },
        { type := .List, lval := [26] },
        { type := .Symbol, sval := "print" },
        { type := .String, sval := "x" },
        { type := .List, lval := [28, 29] },
        { type := .List, lval := [26] },
        { type := .List, lval := [25, 27, 30, 31] } ],
    frames := [initFrame], callStackSize := 255, out := [] }

/-- A freshly initialized interpreter whose call counter already exceeds
MAX_STACK_SIZE (257 calls active). -/
def c5guardState : IState := { initState with callStackSize := 257 }

/-- Claim C5 counterexample: with 255 calls already active — so the next
call is the 256th nested call — defining the base-case-free
`(defun (f) (print "x") (f))` and calling `(f)` runs two further full
bodies (two prints) before anything is reported: the 256th and 257th
nested calls evaluate their bodies, and only the 258th reports
"Max call stack size reached".  Had the claim held, the 256th call would
have reported immediately and evaluated nothing, leaving no printed x. -/
theorem C5_counterexample :
    resultOut (run 150 (.evalBody [32, 31] nilIdx) c5state255) =
        some ["x", "\n", "x", "\n", msgMaxStack] ∧
      resultIdx (run 150 (.evalBody [32, 31] nilIdx) c5state255) = some nilIdx ∧
      (okState (run 150 (.evalBody [32, 31] nilIdx) c5state255)).map
        IState.callStackSize = some 255 :=
  ⟨by decide, by decide, by decide⟩

/-- Claim C5 as amended: call_function reports "Max call stack size
reached" and returns nil with nothing evaluated exactly when it is
entered with more than MAX_STACK_SIZE = 256 calls already active — that
is, at nested call depth 258, not 256; below that the guard passes
straight to parameter binding; and every normally finishing task
restores the counter (the increment on entry is paired with the
decrement on exit, and builtin dispatch never touches the counter). -/
theorem C5_theorem :
    (∀ fuel s f a, s.callStackSize > MAX_STACK_SIZE →
        run (fuel + 1) (.callFunction f a) s = .ok (nilIdx, s.report msgMaxStack)) ∧
      (∀ fuel s f a, ¬ s.callStackSize > MAX_STACK_SIZE →
        run (fuel + 1) (.callFunction f a) s =
          run fuel (.bindParams f a (if (s.getObj f).lambdaFlag then 0 else 1) []) s) ∧
      (∀ fuel t s r s1, run fuel t s = .ok (r, s1) →
        s1.callStackSize = s.callStackSize) := by
  refine ⟨?_, ?_, ?_⟩
  · intro fuel s f a h
    simp only [run]
    rw [if_pos h]
  · intro fuel s f a h
    simp only [run]
    rw [if_neg h]
  · intro fuel t s r s1 h
    exact (run_preserves fuel t s r s1 h).1

/-- Claim C5 witness: with 257 calls active the guard fires at once, and
the counter of the reported state equals the counter at entry. -/
theorem C5_witness :
    run 4 (.callFunction 0 0) c5guardState = .ok (nilIdx, c5guardState.report msgMaxStack) ∧
      (c5guardState.report msgMaxStack).callStackSize = c5guardState.callStackSize :=
  ⟨C5_theorem.1 3 c5guardState 0 0 (by decide),
    C5_theorem.2.2 4 (.callFunction 0 0) c5guardState nilIdx _
      (C5_theorem.1 3 c5guardState 0 0 (by decide))⟩

/-- Looking up a key right after storing it finds the stored value. -/
theorem lookupA_insertA (f : Frame) (k : String) (v : Nat) :
    lookupA (insertA f k v) k = some v := by
  induction f with
  | nil => simp [insertA, lookupA]
  | cons p rest ih =>
    obtain ⟨k2, w⟩ := p
    by_cases hk : k2 = k
    · simp [insertA, lookupA, hk]
    · simp [insertA, lookupA, hk, ih]

/-- Unfolding equation of get_symbol_frames on a nonempty chain. -/
theorem get_symbol_frames_cons (f : Frame) (rest : List Frame) (key : String) :
    get_symbol_frames (f :: rest) key =
      match lookupA f key with
      | some v => v
      | none =>
        match rest with
        | [] => nilIdx
        | _ :: _ => get_symbol_frames rest key := rfl

/-- Claim C10: evaluating a Symbol object whose bound value was resolved
from an outer scope and is not yet Evaluated writes the memoized result
with set_symbol into the current innermost scope: the evaluation flags
the value object in the heap and rebinds the name in the innermost frame
only, so that frame gains a shadowing binding for the name while every
outer frame stays as it was, the shadow is found by an innermost lookup,
and popping the innermost scope makes the shadow disappear, leaving
exactly the original outer chain. -/
theorem C10_theorem :
    ∀ fuel s e x v inner rest,
      s.frames = inner :: rest →
      lookupA inner x = none →
      rest ≠ [] →
      get_symbol_frames rest x = v →
      (s.getObj e).type = .Symbol →
      (s.getObj e).sval = x →
      (s.getObj e).evaluated = false →
      (s.getObj v).evaluated = false →
      (s.getObj v).type ≠ .Symbol →
      (s.getObj v).type ≠ .List →
      run (fuel + 2) (.eval e) s =
          .ok (v, set_symbol (s.setObj v { s.getObj v with evaluated := true }) x v) ∧
        IState.frames (set_symbol (s.setObj v { s.getObj v with evaluated := true }) x v) =
          insertA inner x v :: rest ∧
        lookupA (insertA inner x v) x = some v ∧
        IState.frames
            (exit_scope (set_symbol (s.setObj v { s.getObj v with evaluated := true }) x v)) =
          rest := by
  intro fuel s e x v inner rest hframes hlook hrest hget htype hsval hflagE hflagV hnotSym hnotList
  have hres : get_symbol s x = v := by
    rcases rest with _ | ⟨f2, rest2⟩
    · exact absurd rfl hrest
    · unfold get_symbol
      rw [hframes, get_symbol_frames_cons]
      simp only [hlook]
      exact hget
  have hv : run (fuel + 1) (.eval v) s = .ok (v, s) := by
    simp only [run, hflagV, Bool.false_eq_true, if_false]
  have hfr : IState.frames (set_symbol (s.setObj v { s.getObj v with evaluated := true }) x v) =
      insertA inner x v :: rest := by
    simp only [set_symbol, IState.setObj, hframes]
  refine ⟨?_, hfr, lookupA_insertA inner x v, ?_⟩
  · simp only [run, hflagE, Bool.false_eq_true, if_false, htype, hsval, hres, hflagV, hv]
    rfl
  · simp only [exit_scope, hfr]
    rfl

/-- A two-scope state for the C10 witness: the innermost scope is empty,
the outer (global) scope binds x to the not yet evaluated number at
address 25; address 26 is the Symbol object x being evaluated. -/
def c10state : IState :=
  { heap := initHeap ++ [ { type := .Number, ival := 7 }, { type := .Symbol, sval := "x" } ],
    frames := [[], initFrame ++ [("x", 25)]], callStackSize := 0, out := [] }

/-- Claim C10 witness: evaluating the symbol x of the two-scope state
memoizes the number into the empty innermost scope, the shadow is found
there, and popping the scope leaves the original outer chain. -/
theorem C10_witness :
    run 2 (.eval 26) c10state =
        .ok (25, set_symbol (c10state.setObj 25 { c10state.getObj 25 with evaluated := true })
          "x" 25) ∧
      IState.frames (set_symbol
          (c10state.setObj 25 { c10state.getObj 25 with evaluated := true }) "x" 25) =
        insertA [] "x" 25 :: [initFrame ++ [("x", 25)]] ∧
      lookupA (insertA [] "x" 25) "x" = some 25 ∧
      IState.frames (exit_scope (set_symbol
          (c10state.setObj 25 { c10state.getObj 25 with evaluated := true }) "x" 25)) =
        [initFrame ++ [("x", 25)]] :=
  C10_theorem 0 c10state 26 "x" 25 [] [initFrame ++ [("x", 25)]]
    (by decide) (by decide) (by decide) (by decide) (by decide)
    (by decide) (by decide) (by decide) (by decide) (by decide)

/-- Reader output for claim C9: the program `(setq x 1)`,
`(setq h (lambda () x))`, `(defun (g) (setq x 2) (h))`, `(g)` exercising
dynamic scoping and sequential body evaluation, plus `(defun (k x) x)`
and the call `(k (+ x 1))` exercising argument evaluation in the
environment of the caller.  Addresses: 25 setq, 26 x, 27 one, 28 the
first setq form, 29 h, 30 lambda, 31 the empty parameter list, 32 the
lambda form, 33 the setq form binding h, 34 defun, 35 g, 36 the
definition list (g), 37 two, 38 the inner setq form, 39 the call (h),
40 the defun form of g, 41 the call (g), 42 k, 43 the definition list
(k x), 44 the defun form of k, 45 +, 46 the argument form (+ x 1),
47 the call (k (+ x 1)). -/
def c9state : IState := withObjs
  [ { type := .Symbol, sval := "setq" },
    { type := .Symbol, sval := "x" },
    { type := .Number, ival := 1 },
    { type := .List, lval := [25, 26, 27] },
    { type := .Symbol, sval := "h" },
    { type := .Symbol, sval := "lambda" },
    { type := .List, lval := [] },
    { type := .List, lval := [30, 31, 26] },
    { type := .List, lval := [25, 29, 32] },
    { type := .Symbol, sval := "defun" },
    { type := .Symbol, sval := "g" },
    { type := .List, lval := [35] },
    { type := .Number, ival := 2 },
    { type := .List, lval := [25, 26, 37] },
    { type := .List, lval := [29] },
    { type := .List, lval := [34, 36, 38, 39] },
    { type := .List, lval := [35] },
    { type := .Symbol, sval := "k" },
    { type := .List, lval := [42, 26] },
    { type := .List, lval := [34, 43, 26] },
    { type := .Symbol, sval := "+" },
    { type := .List, lval := [45, 26, 27] },
    { type := .List, lval := [42, 46] } ]

/-- A state for the empty-body part of claim C9: a hand-built named
function m whose body list has only the form marker and the parameter
list (no members from index 2 on).  Addresses: 25 the symbol m, 26 the
definition list (m), 27 the two-element body list, 28 the function
object, 29 the call (m). -/
def c9bState : IState :=
  { heap := initHeap ++
      [ { type := .Symbol, sval := "m" },
        { type := .List, lval := [25] },
        { type := .List, lval := [0, 26] },
        { type := .Function, funargs := 26, funbody := 27 },
        { type := .List, lval := [25] } ],
    frames := [initFrame ++ [("m", 28)]], callStackSize := 0, out := [] }

/-- Claim C9: the call protocol of the embedded interpreter is dynamic —
running the C9 program, the lambda h defined at top level (where x is 1)
and invoked from inside g (whose scope binds x to 2) resolves x to 2,
the scope entered by g chaining to the caller environment and its body
members being evaluated in sequence with the last value as result; after
the call returns, the scope has been exited and the top-level x is 1
again; the argument of `(k (+ x 1))` is evaluated in the environment of
the caller before the new scope is entered, so the parameter x of k is
bound to 2 (caller x = 1, plus 1) rather than to anything resolved in
the fresh scope; a body with no members from index 2 on yields nil; and
in general every normally finishing call restores both the counter and
the scope-chain length. -/
theorem C9_theorem :
    resultObj (run 200 (.evalBody [28, 33, 40, 41] nilIdx) c9state) =
        some { type := .Number, ival := 2, evaluated := true } ∧
      resultObj (run 200 (.evalBody [28, 33, 40, 41, 26] nilIdx) c9state) =
        some { type := .Number, ival := 1, evaluated := true } ∧
      resultObj (run 200 (.evalBody [28, 44, 47] nilIdx) c9state) =
        some { type := .Number, ival := 2, evaluated := true } ∧
      resultIdx (run 30 (.eval 29) c9bState) = some nilIdx ∧
      (∀ fuel f a s r s1, run fuel (.callFunction f a) s = .ok (r, s1) →
        s1.callStackSize = s.callStackSize ∧ s1.frames.length = s.frames.length) :=
  ⟨by decide, by decide, by decide, by decide,
    fun fuel f a s r s1 h => run_preserves fuel (.callFunction f a) s r s1 h⟩

/-- Claim C9 witness: the scope-restoration law instantiated at a
concrete finished call — the guarded call at counter 257, whose reported
result state plainly has the same counter and chain length. -/
theorem C9_witness :
    (c5guardState.report msgMaxStack).callStackSize = c5guardState.callStackSize ∧
      (c5guardState.report msgMaxStack).frames.length = c5guardState.frames.length :=
  C9_theorem.2.2.2.2 4 0 0 c5guardState nilIdx (c5guardState.report msgMaxStack) (by decide)
